import Mathlib

/-!
Shallow embedding of the calendar conversion engine of the shamsy-calendar
repository (src/main.go and src/unnamed/part_000), with theorems checking
the specification claims against it.  Go machine integers are modeled as
Int; Go integer division and remainder truncate toward zero, so they are
modeled with Int.tdiv and Int.tmod.  A Go slice access xs[i] panics when i
is outside [0, len(xs)); it is modeled as an Option-valued lookup that
returns none exactly in the panicking cases.
-/

/-- Go slice indexing: some value when the index is in range, none (panic)
otherwise. -/
def goIndex (xs : List Int) (i : Int) : Option Int :=
  if 0 ≤ i then xs[i.toNat]? else none

/-- Embeds isshamsyLeapYear from src/main.go lines 149-159 (identical in
src/unnamed/part_000 lines 141-151): truncated remainders of (year - 474)
by 2820 and then by 33, tested against the residue list by a loop. -/
def isshamsyLeapYear (year : Int) : Bool :=
  let leapYears : List Int := [1, 5, 9, 13, 17, 22, 26, 30]
  let cycle := (year - 474).tmod 2820
  let mod := cycle.tmod 33
  leapYears.any (fun v => mod == v)

/-- Embeds isGregorianLeapYear from src/main.go lines 161-163. -/
def isGregorianLeapYear (year : Int) : Bool :=
  (year.tmod 4 == 0 && year.tmod 100 != 0) || year.tmod 400 == 0

/-- Embeds shamsyMonthDays from src/main.go lines 165-177: total over all
integer months (31 for month ≤ 6, 30 for months 7 to 11, 30 or 29 for
month 12, and 0 for any month ≥ 13). -/
def shamsyMonthDays (year month : Int) : Int :=
  if month ≤ 6 then 31
  else if month ≤ 11 then 30
  else if month == 12 then (if isshamsyLeapYear year then 30 else 29)
  else 0

/-- Embeds gregorianMonthDays from src/main.go lines 179-185: the slice
lookup daysInMonth[month-1] panics (none) for month outside [1,12], except
that February of a leap year returns 29 before any indexing. -/
def gregorianMonthDays (year month : Int) : Option Int :=
  let daysInMonth : List Int := [31, 28, 31, 30, 31, 30, 31, 31, 30, 31, 30, 31]
  if month == 2 && isGregorianLeapYear year then some 29
  else goIndex daysInMonth (month - 1)

/-- Embeds gregorianToshamsy from src/main.go lines 187-251.  The two source
branches on gm > 2 differ only in the month-offset table indexed and in the
year used for the leap correction terms (gy2); both are reproduced here.
The slice lookup monthDays[gm-1] panics (none) for out-of-range months. -/
def gregorianToshamsy (gy0 gm gd : Int) : Option (Int × Int × Int) :=
  let jy0 : Int := if gy0 > 1600 then 979 else 0
  let gy : Int := if gy0 > 1600 then gy0 - 1600 else gy0 - 621
  let gy2 : Int := if gm > 2 then gy else gy - 1
  let monthDays : List Int :=
    if gm > 2 then [0, 31, 59, 90, 120, 151, 181, 212, 243, 273, 304, 334]
    else [0, 31, 59]
  (goIndex monthDays (gm - 1)).map (fun mo =>
    let t0 := 365 * gy + (gy2 + 3).tdiv 4 - (gy2 + 99).tdiv 100
                + (gy2 + 399).tdiv 400 - 80 + gd + mo
    let jy1 := jy0 + 33 * (t0.tdiv 12053)
    let t1 := t0.tmod 12053
    let jy2 := jy1 + 4 * (t1.tdiv 1461)
    let t2 := t1.tmod 1461
    let jy3 := if t2 > 365 then jy2 + (t2 - 1).tdiv 365 else jy2
    let t3 := if t2 > 365 then (t2 - 1).tmod 365 else t2
    if t3 < 186 then (jy3, 1 + t3.tdiv 31, 1 + t3.tmod 31)
    else (jy3, 7 + (t3 - 186).tdiv 30, 1 + (t3 - 186).tmod 30))

/-- Month walk loop of shamsyToGregorian in src/main.go lines 293-297:
while gm < 12 and gd > monthDays[gm], subtract and advance.  The bound
gm < 12 is realized by structural recursion over the 12-entry list. -/
def monthWalk (mds : List Int) (gm gd : Int) : Int × Int :=
  match mds with
  | [] => (gm, gd)
  | m :: rest => if gd > m then monthWalk rest (gm + 1) (gd - m) else (gm, gd)

/-- Embeds shamsyToGregorian from src/main.go lines 253-301: rebases the
Solar Hijri year by +1595, builds the day count, peels 400-year, century,
4-year and single-year blocks starting from Gregorian year 0, recomputes
the leap flag from the resulting year, and walks the month table. -/
def shamsyToGregorian (jy0 jm jd : Int) : Int × Int × Int :=
  let jy := jy0 + 1595
  let d0 := -355668 + 365 * jy + (jy.tdiv 33) * 8 + ((jy.tmod 33) + 3).tdiv 4 + jd
  let d1 := if jm < 7 then d0 + (jm - 1) * 31 else d0 + (jm - 7) * 30 + 186
  let gy0 := 400 * (d1.tdiv 146097)
  let d2 := d1.tmod 146097
  let gy1 := if d2 > 36524 then gy0 + 100 * ((d2 - 1).tdiv 36524) else gy0
  let d3 := if d2 > 36524 then
      (if (d2 - 1).tmod 36524 ≥ 365 then (d2 - 1).tmod 36524 + 1
       else (d2 - 1).tmod 36524)
    else d2
  let gy2 := gy1 + 4 * (d3.tdiv 1461)
  let d4 := d3.tmod 1461
  let gy3 := if d4 > 365 then gy2 + (d4 - 1).tdiv 365 else gy2
  let d5 := if d4 > 365 then (d4 - 1).tmod 365 else d4
  let gd0 := d5 + 1
  let sal_a : Int :=
    if (gy3.tmod 4 == 0 && gy3.tmod 100 != 0) || gy3.tmod 400 == 0 then 1 else 0
  let mds : List Int := [31, 28 + sal_a, 31, 30, 31, 30, 31, 31, 30, 31, 30, 31]
  let w := monthWalk mds 0 gd0
  (gy3, w.1 + 1, w.2)

/-- Month sum loop of shamsyToGregorian in src/unnamed/part_000 lines
210-216: for i := 1; i < jm; i++ add 31 (i ≤ 6) or 30.  The argument is the
number of loop iterations, (jm - 1).toNat. -/
def monthAddP0 : Nat → Int
  | 0 => 0
  | n + 1 => monthAddP0 n + (if (n + 1 : Int) ≤ 6 then 31 else 30)

/-- Month walk loop of shamsyToGregorian in src/unnamed/part_000 lines
244-247: while gm < 12 and g ≥ days_in_month[gm], subtract and advance. -/
def monthWalkGe (mds : List Int) (gm g : Int) : Int × Int :=
  match mds with
  | [] => (gm, g)
  | m :: rest => if g ≥ m then monthWalkGe rest (gm + 1) (g - m) else (gm, g)

/-- Embeds shamsyToGregorian from src/unnamed/part_000 lines 208-251: no
year rebase, a +79 day offset, the peel anchored at Gregorian year 1600,
and a tracked leap flag used for the February length. -/
def shamsyToGregorianP0 (jy jm jd : Int) : Int × Int × Int :=
  let d0 := -355668 + 365 * jy + (jy.tdiv 33) * 8 + ((jy.tmod 33) + 3).tdiv 4 + jd - 1
  let d1 := d0 + monthAddP0 (jm - 1).toNat
  let g0 := d1 + 79
  let gy0 := 1600 + 400 * (g0.tdiv 146097)
  let g1 := g0.tmod 146097
  let leap0 := true
  let gy1 := if g1 ≥ 36525 then gy0 + 100 * ((g1 - 1).tdiv 36524) else gy0
  let g2 := if g1 ≥ 36525 then
      (if (g1 - 1).tmod 36524 ≥ 365 then (g1 - 1).tmod 36524 + 1
       else (g1 - 1).tmod 36524)
    else g1
  let leap1 := if g1 ≥ 36525 then
      (if (g1 - 1).tmod 36524 ≥ 365 then leap0 else false)
    else leap0
  let gy2 := gy1 + 4 * (g2.tdiv 1461)
  let g3 := g2.tmod 1461
  let gy3 := if g3 ≥ 366 then gy2 + (g3 - 1).tdiv 365 else gy2
  let g4 := if g3 ≥ 366 then (g3 - 1).tmod 365 else g3
  let leap2 := if g3 ≥ 366 then false else leap1
  let mds : List Int := [31, if leap2 then 29 else 28, 31, 30, 31, 30, 31, 31, 30, 31, 30, 31]
  let w := monthWalkGe mds 0 g4
  (gy3, w.1 + 1, w.2 + 1)

/-- Embeds the goToshamsyWeekday permutation table from src/main.go line 147. -/
def goToshamsyWeekday : List Int := [1, 2, 3, 4, 5, 6, 0]

/-- Embeds getFirstWeekday from src/main.go lines 303-307.  The Gregorian
weekday of a date is produced there by the Go standard library (time.Date
and time.Weekday), which is outside this repository; it is modeled as an
oracle parameter weekdayOf.  The table lookup panics (none) for an oracle
value outside [0,6]. -/
def getFirstWeekday (weekdayOf : Int → Int → Int → Int) (jy jm : Int) : Option Int :=
  match shamsyToGregorian jy jm 1 with
  | (gy, gm, gd) => goIndex goToshamsyWeekday (weekdayOf gy gm gd)

/-- Spec model: the Solar Hijri leap rule exactly as the specification
words it, with the remainder of (year - 474) by 2820 always normalized to
non-negative (Int emod) and the residue test on mod33. -/
def specLeapResidueRule (year : Int) : Bool :=
  let cycle := (year - 474) % 2820
  let mod33 := cycle % 33
  (mod33 == 1) || (mod33 == 5) || (mod33 == 9) || (mod33 == 13) ||
    (mod33 == 17) || (mod33 == 22) || (mod33 == 26) || (mod33 == 30)

/-- Spec model: Solar Hijri month lengths as the specification lists them:
months 1-6 have 31 days, months 7-11 have 30, month 12 has 30 in a leap
year and 29 otherwise. -/
def specShamsyMonthTable (year : Int) : List Int :=
  [31, 31, 31, 31, 31, 31, 30, 30, 30, 30, 30,
    if isshamsyLeapYear year then 30 else 29]

/-- Spec model: Gregorian month lengths as the specification lists them,
with February = 29 in a leap year. -/
def specGregMonthTable (year : Int) : List Int :=
  [31, if isGregorianLeapYear year then 29 else 28,
    31, 30, 31, 30, 31, 31, 30, 31, 30, 31]

/-- A goIndex lookup succeeds exactly when the index is inside the slice. -/
theorem goIndex_isSome (xs : List Int) (i : Int) :
    (goIndex xs i).isSome = true ↔ 0 ≤ i ∧ i.toNat < xs.length := by
  unfold goIndex
  split
  · simp only [Option.isSome_iff_exists]
    constructor
    · rintro ⟨a, ha⟩
      have := List.getElem?_eq_some_iff.mp ha
      exact ⟨by omega, this.1⟩
    · rintro ⟨h1, h2⟩
      exact ⟨xs[i.toNat], by simp [List.getElem?_eq_some_iff, h2]⟩
  · simp only [Option.isSome_none, Bool.false_eq_true, false_iff]
    omega

/-- Every Solar Hijri month length produced by the code is at most 31. -/
theorem shamsyMonthDays_le_31 (y m : Int) : shamsyMonthDays y m ≤ 31 := by
  simp only [shamsyMonthDays]
  split_ifs <;> omega

/-- The two shamsyToGregorian evolutions disagree on every day of every
month of Solar Hijri year 1403, stated over bounded naturals so that the
finite sweep is decidable. -/
theorem variantsDisagreeKey : ∀ m : Nat, m < 12 → ∀ d : Nat, d < 31 →
    ((d : Int) + 1 ≤ shamsyMonthDays 1403 ((m : Int) + 1)) →
    shamsyToGregorian 1403 ((m : Int) + 1) ((d : Int) + 1) ≠
      shamsyToGregorianP0 1403 ((m : Int) + 1) ((d : Int) + 1) := by decide

/-- Claim C1 (code_bug evidence): the two conversion directions are not
two-sided inverses.  gregorianToshamsy sends the valid Gregorian date
2024-03-20 to 1402-12-29, and shamsyToGregorian sends 1402-12-29 back to
2024-03-19, so the round trip loses a day instead of being the identity. -/
theorem roundtrip_failure_at_2024_03_20 :
    gregorianToshamsy 2024 3 20 = some (1402, 12, 29) ∧
    shamsyToGregorian 1402 12 29 = (2024, 3, 19) := by decide

/-- Claim C2 (code_bug evidence): the fixture conversion holds in only one
direction.  shamsyToGregorian maps 1403-01-01 to 2024-03-20 as the spec
fixture requires, but gregorianToshamsy maps 2024-03-20 to 1402-12-29, one
day before Nowruz 1403, contradicting the fixture. -/
theorem nowruz_fixture_evaluation :
    gregorianToshamsy 2024 3 20 = some (1402, 12, 29) ∧
    shamsyToGregorian 1403 1 1 = (2024, 3, 20) := by decide

/-- Claim C3 counterexample: at year 31 the code (truncated Go remainders,
negative for years below 474) answers false while the claimed rule with the
remainder normalized to non-negative answers true, so the claim fails for
general integer years. -/
theorem leap_rule_mismatch_at_year_31 :
    isshamsyLeapYear 31 = false ∧ specLeapResidueRule 31 = true := by decide

/-- Claim C3 (amended): for every year ≥ 474 the code agrees exactly with
the spec rule cycle = (year - 474) mod 2820 normalized to non-negative,
mod33 = cycle mod 33, leap iff mod33 ∈ {1,5,9,13,17,22,26,30}. -/
theorem leap_rule_matches_spec_from_474 :
    ∀ year : Int, 474 ≤ year → isshamsyLeapYear year = specLeapResidueRule year := by
  intro y hy
  have h1 : (y - 474).tmod 2820 = (y - 474) % 2820 :=
    Int.tmod_eq_emod (by omega) (by decide)
  have h2 : ((y - 474) % 2820).tmod 33 = ((y - 474) % 2820) % 33 :=
    Int.tmod_eq_emod (Int.emod_nonneg _ (by decide)) (by decide)
  simp only [isshamsyLeapYear, specLeapResidueRule, h1, h2,
    List.any_cons, List.any_nil, Bool.or_false, Bool.or_assoc]

/-- Witness for the amended claim C3 at the concrete year 1403. -/
theorem leap_rule_matches_spec_witness :
    (474 : Int) ≤ 1403 ∧ isshamsyLeapYear 1403 = specLeapResidueRule 1403 :=
  ⟨by decide, leap_rule_matches_spec_from_474 1403 (by decide)⟩

/-- Claim C4 counterexample: at the valid Solar Hijri date 1403-01-01 the
two evolutions of shamsyToGregorian return different Gregorian triples, so
they are not equivalent. -/
theorem variants_disagree_at_nowruz_1403 :
    shamsyToGregorian 1403 1 1 = (2024, 3, 20) ∧
    shamsyToGregorianP0 1403 1 1 = (2029, 6, 7) := by decide

/-- Claim C4 (amended): the two evolutions of shamsyToGregorian do not
return the same triple; they disagree at every valid date of Solar Hijri
year 1403, because the src/unnamed/part_000 variant omits the +1595 year
rebase that src/main.go applies before the day-count formula. -/
theorem variants_disagree_throughout_1403 :
    ∀ jm jd : Int, 1 ≤ jm → jm ≤ 12 → 1 ≤ jd → jd ≤ shamsyMonthDays 1403 jm →
    shamsyToGregorian 1403 jm jd ≠ shamsyToGregorianP0 1403 jm jd := by
  intro jm jd h1 h2 h3 h4
  have h31 : jd ≤ 31 := le_trans h4 (shamsyMonthDays_le_31 1403 jm)
  have hm : jm = ((jm.toNat - 1 : Nat) : Int) + 1 := by omega
  have hd : jd = ((jd.toNat - 1 : Nat) : Int) + 1 := by omega
  rw [hm, hd] at h4 ⊢
  exact variantsDisagreeKey (jm.toNat - 1) (by omega) (jd.toNat - 1) (by omega) h4

/-- Witness for the amended claim C4 at the concrete date 1403-01-01. -/
theorem variants_disagree_witness :
    (1 : Int) ≤ 1 ∧ (1 : Int) ≤ shamsyMonthDays 1403 1 ∧
      shamsyToGregorian 1403 1 1 ≠ shamsyToGregorianP0 1403 1 1 :=
  ⟨by decide, by decide,
    variants_disagree_throughout_1403 1 1 (by decide) (by decide) (by decide) (by decide)⟩

/-- Claim C5: for every year and month in [1,12], shamsyMonthDays matches
the spec table 31/31/31/31/31/31/30/30/30/30/30/(30 or 29 by leap year)
and gregorianMonthDays matches the standard table with February 29 in a
Gregorian leap year. -/
theorem month_length_tables_match_spec :
    ∀ (year month : Int), 1 ≤ month → month ≤ 12 →
    (specShamsyMonthTable year)[(month - 1).toNat]? = some (shamsyMonthDays year month) ∧
    (specGregMonthTable year)[(month - 1).toNat]? = gregorianMonthDays year month := by
  intro y m h1 h2
  interval_cases m <;>
    cases hL : isshamsyLeapYear y <;> cases hG : isGregorianLeapYear y <;>
      simp [specShamsyMonthTable, specGregMonthTable, shamsyMonthDays,
        gregorianMonthDays, goIndex, hL, hG]

/-- Witness for claim C5 at year 2024, month 2 (a leap February). -/
theorem month_length_tables_witness :
    (specShamsyMonthTable 2024)[((2 : Int) - 1).toNat]? = some (shamsyMonthDays 2024 2) ∧
    (specGregMonthTable 2024)[((2 : Int) - 1).toNat]? = gregorianMonthDays 2024 2 :=
  month_length_tables_match_spec 2024 2 (by decide) (by decide)

/-- Claim C6 counterexample: for month 13 the Solar Hijri month-length
lookup does not fail with an error; it returns the number 0. -/
theorem shamsyMonthDays_returns_number_out_of_range :
    shamsyMonthDays 1400 13 = 0 := by decide

/-- Claim C6 (amended): for every month outside [1,12] only
gregorianMonthDays fails (its slice access panics); shamsyMonthDays is
total and returns 31 for month < 1 and 0 for month > 12. -/
theorem out_of_range_month_behavior :
    ∀ (year month : Int), month < 1 ∨ 12 < month →
    gregorianMonthDays year month = none ∧
    shamsyMonthDays year month = (if month < 1 then 31 else 0) := by
  intro y m h
  have hne : (m == 2) = false := by simp only [beq_eq_false_iff_ne]; omega
  constructor
  · simp only [gregorianMonthDays, goIndex, hne, Bool.false_and, Bool.false_eq_true,
      if_false]
    rcases h with h | h
    · rw [if_neg (by omega)]
    · rw [if_pos (by omega)]
      exact List.getElem?_eq_none (by simp; omega)
  · simp only [shamsyMonthDays, hne]
    rcases h with h | h
    · rw [if_pos (by omega), if_pos (by omega)]
    · rw [if_neg (by omega), if_neg (by omega),
        if_neg (by simp only [beq_iff_eq]; omega : ¬((m == 12) = true)),
        if_neg (by omega)]

/-- Witness for the amended claim C6 at year 1400, month 13. -/
theorem out_of_range_month_witness :
    gregorianMonthDays 1400 13 = none ∧
      shamsyMonthDays 1400 13 = (if (13 : Int) < 1 then 31 else 0) :=
  out_of_range_month_behavior 1400 13 (Or.inr (by decide))

/-- Claim C7 (code_bug evidence): conversion does not commute with the
one-day successor.  The Gregorian successor of 2024-02-29 is 2024-03-01,
yet gregorianToshamsy maps both days to the same Solar Hijri date
1402-12-10 instead of mapping the successor to 1402-12-11. -/
theorem successor_duplicated_at_2024_02_29 :
    gregorianToshamsy 2024 2 29 = some (1402, 12, 10) ∧
    gregorianToshamsy 2024 3 1 = some (1402, 12, 10) := by decide

/-- Claim C8: the weekday re-mapping table is the permutation sending the
Gregorian index w in [0,6] (0 = Sunday) to (w + 1) mod 7, which is exactly
the table {1,2,3,4,5,6,0}; Saturday (index 6) goes to 0, and
getFirstWeekday applies precisely this table to the oracle weekday of the
Gregorian image of day 1 of the month. -/
theorem weekday_table_permutation :
    ∀ w : Int, 0 ≤ w → w ≤ 6 →
    goIndex goToshamsyWeekday w = some ((w + 1) % 7) ∧
    ∀ (weekdayOf : Int → Int → Int → Int) (jy jm : Int),
      getFirstWeekday weekdayOf jy jm =
        goIndex goToshamsyWeekday
          (weekdayOf (shamsyToGregorian jy jm 1).1 (shamsyToGregorian jy jm 1).2.1
            (shamsyToGregorian jy jm 1).2.2) := by
  intro w h1 h2
  constructor
  · interval_cases w <;> decide
  · intro wd jy jm
    rfl

/-- Witness for claim C8 at the Gregorian Saturday index 6, which maps to
Solar Hijri index 0. -/
theorem weekday_table_permutation_witness :
    goIndex goToshamsyWeekday 6 = some ((6 + 1) % 7) :=
  (weekday_table_permutation 6 (by decide) (by decide)).1

/-- Claim C9 (code_bug evidence): conversion output can violate the
calendar invariant.  For the valid Gregorian date 1601-03-20,
gregorianToshamsy returns 979-12-30, although month 12 of Solar Hijri year
979 has only 29 days. -/
theorem invalid_output_at_1601_03_20 :
    gregorianToshamsy 1601 3 20 = some (979, 12, 30) ∧
    shamsyMonthDays 979 12 = 29 := by decide

/-- Claim C10: shamsyMonthDays is total over all integer months, returning
31 for month ≤ 0 and 0 for month ≥ 13, while the gregorianMonthDays slice
index is in bounds (the lookup succeeds) exactly when month ∈ [1,12]. -/
theorem month_length_out_of_range_totality :
    ∀ (year month : Int),
    (month ≤ 0 → shamsyMonthDays year month = 31) ∧
    (13 ≤ month → shamsyMonthDays year month = 0) ∧
    ((gregorianMonthDays year month).isSome = true ↔ 1 ≤ month ∧ month ≤ 12) := by
  intro y m
  refine ⟨fun h => ?_, fun h => ?_, ?_⟩
  · simp only [shamsyMonthDays]
    rw [if_pos (by omega)]
  · simp only [shamsyMonthDays]
    split_ifs with h6 h11 h12 hL
    · omega
    · omega
    · simp only [beq_iff_eq] at h12; omega
    · simp only [beq_iff_eq] at h12; omega
    · rfl
  · by_cases h2 : m = 2
    · subst h2
      simp only [gregorianMonthDays]
      cases hG : isGregorianLeapYear y <;> simp [hG, goIndex]
    · have hne : (m == 2) = false := by simp only [beq_eq_false_iff_ne]; exact h2
      simp only [gregorianMonthDays, hne, Bool.false_and, Bool.false_eq_true, if_false]
      rw [goIndex_isSome]
      simp only [List.length_cons, List.length_nil]
      omega

/-- Witness for claim C10 at year 5, month 13. -/
theorem month_length_out_of_range_witness :
    shamsyMonthDays 5 13 = 0 ∧
      ((gregorianMonthDays 5 13).isSome = true ↔ 1 ≤ (13 : Int) ∧ (13 : Int) ≤ 12) :=
  ⟨(month_length_out_of_range_totality 5 13).2.1 (by decide),
    (month_length_out_of_range_totality 5 13).2.2⟩
